import Mathlib

/-!
# Verification of `FrameDataPair` / `FrameSequence` (image/src/FrameSequence.h)

A shallow embedding of the `FrameDataPair` class and of the declared
`FrameSequence` container from `src/image/src/FrameSequence.h`.

Modelling decisions:

* An `imgFrame*` handle is `Option Nat` (a frame identity, `none` = null
  pointer; `nsRefPtr<imgFrame>` default-constructs to null and its move
  operations null their source).
* A raw `uint8_t*` data pointer is a `Nat`, with `0` playing the role of
  `nullptr` (C++ truthiness `if (mFrameData)` becomes `mFrameData ≠ 0`).
* The external `imgFrame` collaborator is a black box; what a slot observes
  of it at one call to `LockAndGetData` is a `FrameObs` record: whether
  `LockImageData()` succeeds, what `GetIsPaletted()` returns, and the two
  data pointers `GetPaletteData()` / `GetImageData()`.
* Every operation additionally returns the list of lock / unlock calls it
  issues to frames (`Event`), so lock-discipline claims are statements
  about event counts.
-/

namespace FrameSequenceModel

/-- What one call into the `imgFrame` collaborator observes: the result of
`LockImageData()`, of `GetIsPaletted()`, and the two data pointers
(`0` = null). Supplied at each activation, mirroring that the code queries
the frame at lock time rather than caching. -/
structure FrameObs where
  lockSucceeds : Bool
  isPaletted : Bool
  paletteData : Nat
  imageData : Nat
deriving DecidableEq

/-- A lock-protocol call issued by a slot to a frame: `lockCall f ok` is a
`LockImageData()` call on frame `f` returning success iff `ok`;
`unlockCall f` is an `UnlockImageData()` call on frame `f`. -/
inductive Event where
  | lockCall (frame : Nat) (succeeded : Bool)
  | unlockCall (frame : Nat)
deriving DecidableEq

/-- The `FrameDataPair` class state: `mFrame : nsRefPtr<imgFrame>`
(null = `none`) and `mFrameData : uint8_t*` (null = `0`). -/
structure FrameDataPair where
  mFrame : Option Nat
  mFrameData : Nat
deriving DecidableEq

/-- `FrameDataPair()` — default constructor: `mFrameData(nullptr)`, and the
`nsRefPtr` member default-constructs to null. -/
def FrameDataPair.mkDefault : FrameDataPair :=
  ⟨none, 0⟩

/-- `explicit FrameDataPair(imgFrame* frame)` — `mFrame(frame)`,
`mFrameData(nullptr)`. -/
def FrameDataPair.withFrame (frame : Option Nat) : FrameDataPair :=
  ⟨frame, 0⟩

/-- `FrameDataPair(const FrameDataPair& aOther)` — copies the handle,
`mFrameData(nullptr)`. Issues no lock-protocol calls. -/
def FrameDataPair.copyCtor (aOther : FrameDataPair) : FrameDataPair × List Event :=
  (⟨aOther.mFrame, 0⟩, [])

/-- `FrameDataPair(FrameDataPair&& aOther)` — takes handle and data pointer;
`Move` of the `nsRefPtr` nulls `aOther.mFrame`, and the body sets
`aOther.mFrameData = nullptr`. Returns (new object, source afterwards).
Issues no lock-protocol calls. -/
def FrameDataPair.moveCtor (aOther : FrameDataPair) :
    (FrameDataPair × FrameDataPair) × List Event :=
  ((⟨aOther.mFrame, aOther.mFrameData⟩, ⟨none, 0⟩), [])

/-- `~FrameDataPair()` — `if (mFrameData) mFrame->UnlockImageData();`.
Returns the lock-protocol calls issued. (The null-handle branch of the
`match` is unreachable from states the class actually produces, where an
active view implies a non-null handle.) -/
def FrameDataPair.destruct (s : FrameDataPair) : List Event :=
  if s.mFrameData ≠ 0 then
    match s.mFrame with
    | some f => [Event.unlockCall f]
    | none => []
  else []

/-- `operator=(const FrameDataPair& aOther)` — guarded by
`&aOther != this` (the `isSelf` argument models that address comparison):
copies the handle and nulls `mFrameData`. Note the body does NOT unlock a
currently held view. Issues no lock-protocol calls. -/
def FrameDataPair.copyAssign (self aOther : FrameDataPair) (isSelf : Bool) :
    FrameDataPair × List Event :=
  if isSelf then (self, []) else (⟨aOther.mFrame, 0⟩, [])

/-- `operator=(FrameDataPair&& aOther)` — asserts `&aOther != this`, then
takes handle (nulling the source `nsRefPtr`) and data pointer, and sets
`aOther.mFrameData = nullptr`. Note the body does NOT unlock a view the
destination currently holds. Returns (destination, source afterwards).
Issues no lock-protocol calls. -/
def FrameDataPair.moveAssign (_self aOther : FrameDataPair) :
    (FrameDataPair × FrameDataPair) × List Event :=
  ((⟨aOther.mFrame, aOther.mFrameData⟩, ⟨none, 0⟩), [])

/-- `LockAndGetData()` — if `mFrame` is null, nothing happens. Otherwise a
`LockImageData()` call is issued; on success, `mFrameData` is set from
`GetPaletteData()` when `GetIsPaletted()`, else from `GetImageData()`,
as observed at this call (`obs`). On failure the state is unchanged. -/
def FrameDataPair.lockAndGetData (s : FrameDataPair) (obs : FrameObs) :
    FrameDataPair × List Event :=
  match s.mFrame with
  | none => (s, [])
  | some f =>
    if obs.lockSucceeds then
      ({ s with
         mFrameData := if obs.isPaletted then obs.paletteData else obs.imageData },
       [Event.lockCall f true])
    else
      (s, [Event.lockCall f false])

/-- `Forget()` — if the view is active, unlock; null `mFrameData`; return
`mFrame.forget()` (the handle passes to the caller and the member becomes
null). Returns (slot afterwards, returned handle, lock-protocol calls). -/
def FrameDataPair.forget (s : FrameDataPair) :
    FrameDataPair × Option Nat × List Event :=
  (⟨none, 0⟩, s.mFrame,
   if s.mFrameData ≠ 0 then
     match s.mFrame with
     | some f => [Event.unlockCall f]
     | none => []
   else [])

/-- `HasFrameData()` — `return !!mFrameData;`. -/
def FrameDataPair.hasFrameData (s : FrameDataPair) : Bool :=
  s.mFrameData != 0

/-- `GetFrameData()` — `return mFrameData;`. -/
def FrameDataPair.getFrameData (s : FrameDataPair) : Nat :=
  s.mFrameData

/-- `GetFrame()` — returns the handle. -/
def FrameDataPair.getFrame (s : FrameDataPair) : Option Nat :=
  s.mFrame

/-- `SetFrame(imgFrame* frame)` — if the view is active, unlock the current
frame; then rebind `mFrame = frame` and null `mFrameData`. -/
def FrameDataPair.setFrame (s : FrameDataPair) (frame : Option Nat) :
    FrameDataPair × List Event :=
  (⟨frame, 0⟩,
   if s.mFrameData ≠ 0 then
     match s.mFrame with
     | some f => [Event.unlockCall f]
     | none => []
   else [])

/-- Number of successful `LockImageData()` calls in an event list. -/
def countSuccessfulLocks (es : List Event) : Nat :=
  es.countP fun e =>
    match e with
    | Event.lockCall _ true => true
    | _ => false

/-- Number of `UnlockImageData()` calls in an event list. -/
def countUnlocks (es : List Event) : Nat :=
  es.countP fun e =>
    match e with
    | Event.unlockCall _ => true
    | _ => false

/-- One operation applied to a tracked slot during its lifetime (between
construction and destruction). `copyAssignFrom` / `moveAssignFrom` model the
slot being the assignment target, with a distinct source slot. -/
inductive SlotOp where
  | activateView (obs : FrameObs)
  | setFrameOp (frame : Option Nat)
  | forgetOp
  | copyAssignFrom (aOther : FrameDataPair)
  | moveAssignFrom (aOther : FrameDataPair)
deriving DecidableEq

/-- Apply one `SlotOp` to a slot, returning the new slot state and the
lock-protocol calls the slot issued. -/
def stepOp (s : FrameDataPair) (op : SlotOp) : FrameDataPair × List Event :=
  match op with
  | SlotOp.activateView obs => s.lockAndGetData obs
  | SlotOp.setFrameOp frame => s.setFrame frame
  | SlotOp.forgetOp => ((s.forget).1, (s.forget).2.2)
  | SlotOp.copyAssignFrom aOther => s.copyAssign aOther false
  | SlotOp.moveAssignFrom aOther => ((s.moveAssign aOther).1.1, (s.moveAssign aOther).2)

/-- Run a list of operations on a slot, accumulating issued calls. -/
def runOps (s : FrameDataPair) : List SlotOp → FrameDataPair × List Event
  | [] => (s, [])
  | op :: rest =>
    let r1 := stepOp s op
    let r2 := runOps r1.1 rest
    (r2.1, r1.2 ++ r2.2)

/-- All lock-protocol calls of a whole slot lifetime: construction with the
given initial state, the listed operations, then destruction. -/
def lifetimeEvents (s : FrameDataPair) (ops : List SlotOp) : List Event :=
  (runOps s ops).2 ++ (runOps s ops).1.destruct

/-- Well-usedness of one operation in state `s`: `activateView` only while
the view is inactive and with the selected data accessor non-null whenever
the lock succeeds; assignments onto the slot only while its view is
inactive, a move additionally from a source whose view is inactive. -/
def goodOpB (s : FrameDataPair) (op : SlotOp) : Bool :=
  match op with
  | SlotOp.activateView obs =>
    s.mFrameData == 0 &&
      (!obs.lockSucceeds || (if obs.isPaletted then obs.paletteData else obs.imageData) != 0)
  | SlotOp.setFrameOp _ => true
  | SlotOp.forgetOp => true
  | SlotOp.copyAssignFrom _ => s.mFrameData == 0
  | SlotOp.moveAssignFrom aOther => s.mFrameData == 0 && aOther.mFrameData == 0

/-- Well-usedness of a whole operation list starting in state `s`. -/
def goodOpsB (s : FrameDataPair) : List SlotOp → Bool
  | [] => true
  | op :: rest => goodOpB s op && goodOpsB (stepOp s op).1 rest

/-!
## FrameSequence

`FrameSequence.h` only declares `InsertFrame` / `RemoveFrame` (their bodies
live in a .cpp file that is not part of the excerpt), so the container is
modelled from the spec. A sequence is the ordered list of the frame handles
its slots hold (insertion constructs a slot bound to the given frame, with
an inactive view, so per-position handle identity is all `insert` / `remove`
touch).
-/

/-- The `FrameSequence` state: `nsTArray<FrameDataPair> mFrames`, projected
to the per-position frame handles. -/
structure FrameSequence where
  mFrames : List (Option Nat)
deriving DecidableEq

/-- Insert `frame` at position `framenum` of a handle list, shifting later
positions upward. -/
def insertAt (framenum : Nat) (frame : Option Nat) :
    List (Option Nat) → List (Option Nat)
  | [] => [frame]
  | x :: xs =>
    match framenum with
    | 0 => frame :: x :: xs
    | n + 1 => x :: insertAt n frame xs

/-- Remove the element at position `framenum` of a handle list, shifting
later positions downward. -/
def removeAt (framenum : Nat) : List (Option Nat) → List (Option Nat)
  | [] => []
  | x :: xs =>
    match framenum with
    | 0 => xs
    | n + 1 => x :: removeAt n xs

/-- Modelled from the spec: `FrameSequence::InsertFrame(framenum, aFrame)`
is declared in the header but its body is not in the excerpt. Per §4.2,
`insert(index, frame)` "inserts a new slot bound to `frame` at `index`,
shifting later slots up", with `index <= size()` as precondition. -/
def FrameSequence.insertFrame (seq : FrameSequence) (framenum : Nat)
    (aFrame : Option Nat) : FrameSequence :=
  ⟨insertAt framenum aFrame seq.mFrames⟩

/-- Modelled from the spec: `FrameSequence::RemoveFrame(framenum)` is
declared in the header but its body is not in the excerpt. Per §4.2,
`remove(index)` "destroys the slot at `index` ..., shifts later slots
down", with `index < size()` as precondition. -/
def FrameSequence.removeFrame (seq : FrameSequence) (framenum : Nat) :
    FrameSequence :=
  ⟨removeAt framenum seq.mFrames⟩

/-- `FrameSequence::GetNumFrames` — the number of slots. -/
def FrameSequence.getNumFrames (seq : FrameSequence) : Nat :=
  seq.mFrames.length

/-!
## Helper lemmas
-/

/-- Removing at `n` after inserting at `n ≤ length` restores the list. -/
theorem removeAt_insertAt (frame : Option Nat) :
    ∀ (xs : List (Option Nat)) (n : Nat), n ≤ xs.length →
      removeAt n (insertAt n frame xs) = xs
  | [], 0, _ => by simp [insertAt, removeAt]
  | [], n + 1, h => by simp at h
  | x :: xs, 0, _ => by simp [insertAt, removeAt]
  | x :: xs, n + 1, h => by
    have ih := removeAt_insertAt frame xs n (by simpa using h)
    simp [insertAt, removeAt, ih]

/-- The calls the destructor issues: no lock, and one unlock exactly when
the view is active (given the data-implies-frame invariant). -/
theorem destruct_counts (s : FrameDataPair)
    (hinv : s.mFrameData ≠ 0 → s.mFrame ≠ none) :
    countSuccessfulLocks s.destruct = 0 ∧
    countUnlocks s.destruct = (if s.mFrameData ≠ 0 then 1 else 0) := by
  by_cases hd : s.mFrameData = 0
  · simp [FrameDataPair.destruct, hd, countSuccessfulLocks, countUnlocks]
  · cases hf : s.mFrame with
    | none => exact absurd hf (hinv hd)
    | some f =>
      simp [FrameDataPair.destruct, hd, hf, countSuccessfulLocks, countUnlocks]

/-- One well-used step preserves the data-implies-frame invariant and the
lock/unlock ledger balance: successful locks issued plus the view-activity
before equal unlocks issued plus the view-activity after. -/
theorem stepOp_balance (s : FrameDataPair) (op : SlotOp)
    (hgood : goodOpB s op = true)
    (hinv : s.mFrameData ≠ 0 → s.mFrame ≠ none) :
    ((stepOp s op).1.mFrameData ≠ 0 → (stepOp s op).1.mFrame ≠ none) ∧
    countSuccessfulLocks (stepOp s op).2 + (if s.mFrameData ≠ 0 then 1 else 0) =
      countUnlocks (stepOp s op).2 + (if (stepOp s op).1.mFrameData ≠ 0 then 1 else 0) := by
  cases op with
  | activateView obs =>
    simp only [goodOpB, Bool.and_eq_true, beq_iff_eq, Bool.or_eq_true,
      Bool.not_eq_eq_eq_not, Bool.not_true, bne_iff_ne, ne_eq] at hgood
    obtain ⟨hd0, hsel⟩ := hgood
    cases hf : s.mFrame with
    | none =>
      simp [stepOp, FrameDataPair.lockAndGetData, hf, hd0,
        countSuccessfulLocks, countUnlocks]
    | some f =>
      by_cases hl : obs.lockSucceeds
      · have hne : (if obs.isPaletted then obs.paletteData else obs.imageData) ≠ 0 := by
          rcases hsel with h | h
          · exact absurd hl (by simp [h])
          · exact h
        simp [stepOp, FrameDataPair.lockAndGetData, hf, hl, hd0, hne,
          countSuccessfulLocks, countUnlocks]
      · simp [stepOp, FrameDataPair.lockAndGetData, hf, hl, hd0,
          countSuccessfulLocks, countUnlocks]
  | setFrameOp frame =>
    by_cases hd : s.mFrameData = 0
    · simp [stepOp, FrameDataPair.setFrame, hd, countSuccessfulLocks, countUnlocks]
    · cases hf : s.mFrame with
      | none => exact absurd hf (hinv hd)
      | some f =>
        simp [stepOp, FrameDataPair.setFrame, hd, hf,
          countSuccessfulLocks, countUnlocks]
  | forgetOp =>
    by_cases hd : s.mFrameData = 0
    · simp [stepOp, FrameDataPair.forget, hd, countSuccessfulLocks, countUnlocks]
    · cases hf : s.mFrame with
      | none => exact absurd hf (hinv hd)
      | some f =>
        simp [stepOp, FrameDataPair.forget, hd, hf,
          countSuccessfulLocks, countUnlocks]
  | copyAssignFrom aOther =>
    simp only [goodOpB, beq_iff_eq] at hgood
    simp [stepOp, FrameDataPair.copyAssign, hgood,
      countSuccessfulLocks, countUnlocks]
  | moveAssignFrom aOther =>
    simp only [goodOpB, Bool.and_eq_true, beq_iff_eq] at hgood
    simp [stepOp, FrameDataPair.moveAssign, hgood.1, hgood.2,
      countSuccessfulLocks, countUnlocks]

/-- A well-used run preserves the data-implies-frame invariant and keeps
the ledger balanced. -/
theorem runOps_balance (ops : List SlotOp) :
    ∀ s : FrameDataPair, goodOpsB s ops = true →
      (s.mFrameData ≠ 0 → s.mFrame ≠ none) →
      (((runOps s ops).1.mFrameData ≠ 0 → (runOps s ops).1.mFrame ≠ none) ∧
       countSuccessfulLocks (runOps s ops).2 + (if s.mFrameData ≠ 0 then 1 else 0) =
         countUnlocks (runOps s ops).2 +
           (if (runOps s ops).1.mFrameData ≠ 0 then 1 else 0)) := by
  induction ops with
  | nil =>
    intro s _ hinv
    refine ⟨fun h => hinv h, ?_⟩
    simp [runOps, countSuccessfulLocks, countUnlocks]
  | cons op rest ih =>
    intro s hgood hinv
    simp only [goodOpsB, Bool.and_eq_true] at hgood
    have hstep := stepOp_balance s op hgood.1 hinv
    have hrest := ih (stepOp s op).1 hgood.2 hstep.1
    refine ⟨?_, ?_⟩
    · simpa [runOps] using hrest.1
    · have hcount :
        countSuccessfulLocks (runOps s (op :: rest)).2 =
          countSuccessfulLocks (stepOp s op).2 +
            countSuccessfulLocks (runOps (stepOp s op).1 rest).2 := by
        simp [runOps, countSuccessfulLocks, List.countP_append]
      have hcount2 :
        countUnlocks (runOps s (op :: rest)).2 =
          countUnlocks (stepOp s op).2 +
            countUnlocks (runOps (stepOp s op).1 rest).2 := by
        simp [runOps, countUnlocks, List.countP_append]
      have hfin : (runOps s (op :: rest)).1 = (runOps (stepOp s op).1 rest).1 := by
        simp [runOps]
      rw [hcount, hcount2, hfin]
      omega

/-!
## Claims
-/

/-- C1 (counterexample): the claim says copy-assignment onto a slot whose
view is active issues exactly one unlock; in the code, a slot with an
active view (obtained by a successful `LockAndGetData`) that is then
copy-assigned from a different slot issues zero unlocks. -/
theorem copyAssign_active_view_no_unlock_cex :
    (((FrameDataPair.withFrame (some 0)).lockAndGetData
        ⟨true, false, 0, 1⟩).1.hasFrameData = true) ∧
    ¬ (countUnlocks (((FrameDataPair.withFrame (some 0)).lockAndGetData
          ⟨true, false, 0, 1⟩).1.copyAssign
          (FrameDataPair.withFrame (some 7)) false).2 = 1) := by
  decide

/-- C1 (amended): destroying or re-targeting (`SetFrame`) a slot whose view
is active issues exactly one unlock of the held frame before the slot takes
its new state; copy-assignment and move-assignment from a different slot
clear (respectively overwrite) the view WITHOUT issuing any unlock. -/
theorem frameDataPair_exit_unlock_discipline (s aOther : FrameDataPair)
    (f : Nat) (newFrame : Option Nat)
    (hf : s.mFrame = some f) (hd : s.mFrameData ≠ 0) :
    s.destruct = [Event.unlockCall f] ∧
    (s.setFrame newFrame).2 = [Event.unlockCall f] ∧
    (s.setFrame newFrame).1 = ⟨newFrame, 0⟩ ∧
    (s.copyAssign aOther false).2 = [] ∧
    (s.copyAssign aOther false).1.hasFrameData = false ∧
    (s.moveAssign aOther).2 = [] := by
  simp [FrameDataPair.destruct, FrameDataPair.setFrame, FrameDataPair.copyAssign,
    FrameDataPair.moveAssign, FrameDataPair.hasFrameData, hf, hd]

/-- C1 (witness): the amended discipline at the concrete active slot
`(frame 0, data 1)` retargeted to frame 3. -/
theorem frameDataPair_exit_unlock_discipline_witness :
    (FrameDataPair.mk (some 0) 1).destruct = [Event.unlockCall 0] ∧
    ((FrameDataPair.mk (some 0) 1).setFrame (some 3)).2 = [Event.unlockCall 0] ∧
    ((FrameDataPair.mk (some 0) 1).setFrame (some 3)).1 = ⟨some 3, 0⟩ ∧
    ((FrameDataPair.mk (some 0) 1).copyAssign FrameDataPair.mkDefault false).2 = [] ∧
    ((FrameDataPair.mk (some 0) 1).copyAssign FrameDataPair.mkDefault false).1.hasFrameData
      = false ∧
    ((FrameDataPair.mk (some 0) 1).moveAssign FrameDataPair.mkDefault).2 = [] :=
  frameDataPair_exit_unlock_discipline ⟨some 0, 1⟩ FrameDataPair.mkDefault 0 (some 3)
    rfl (by decide)

/-- C2 (counterexample): the per-lifetime lock/unlock equality fails on the
lifetime [construct with frame 0, activate the view successfully,
copy-assign from a default slot, destroy]: one successful lock is issued
and no unlock ever is (the copy-assignment drops the view without
unlocking). -/
theorem slot_lifetime_lock_balance_cex :
    ¬ (countSuccessfulLocks (lifetimeEvents (FrameDataPair.withFrame (some 0))
          [SlotOp.activateView ⟨true, false, 0, 1⟩,
           SlotOp.copyAssignFrom FrameDataPair.mkDefault]) =
        countUnlocks (lifetimeEvents (FrameDataPair.withFrame (some 0))
          [SlotOp.activateView ⟨true, false, 0, 1⟩,
           SlotOp.copyAssignFrom FrameDataPair.mkDefault])) := by
  decide

/-- C2 (amended): for every slot lifetime that is well-used — `activateView`
only while the view is inactive and with the selected data accessor
non-null whenever the lock succeeds, assignments onto the slot only while
its view is inactive (move sources likewise inactive), and the slot never
moved-from — the successful lock calls the slot issues equal the unlock
calls it issues by destruction time. -/
theorem slot_lifetime_lock_balance (frame0 : Option Nat) (ops : List SlotOp)
    (hgood : goodOpsB (FrameDataPair.withFrame frame0) ops = true) :
    countSuccessfulLocks (lifetimeEvents (FrameDataPair.withFrame frame0) ops) =
      countUnlocks (lifetimeEvents (FrameDataPair.withFrame frame0) ops) := by
  have hbal := runOps_balance ops (FrameDataPair.withFrame frame0) hgood
    (by simp [FrameDataPair.withFrame])
  have hdes := destruct_counts (runOps (FrameDataPair.withFrame frame0) ops).1 hbal.1
  have h2 := hbal.2
  have h0 : (if (FrameDataPair.withFrame frame0).mFrameData ≠ 0 then 1 else 0) = 0 := by
    simp [FrameDataPair.withFrame]
  rw [h0] at h2
  have e1 : countSuccessfulLocks (lifetimeEvents (FrameDataPair.withFrame frame0) ops) =
      countSuccessfulLocks (runOps (FrameDataPair.withFrame frame0) ops).2 +
        countSuccessfulLocks (runOps (FrameDataPair.withFrame frame0) ops).1.destruct := by
    simp [lifetimeEvents, countSuccessfulLocks, List.countP_append]
  have e2 : countUnlocks (lifetimeEvents (FrameDataPair.withFrame frame0) ops) =
      countUnlocks (runOps (FrameDataPair.withFrame frame0) ops).2 +
        countUnlocks (runOps (FrameDataPair.withFrame frame0) ops).1.destruct := by
    simp [lifetimeEvents, countUnlocks, List.countP_append]
  rw [e1, e2, hdes.1, hdes.2]
  omega

/-- C2 (witness): the balance on the concrete well-used lifetime
[construct with frame 0, activate successfully, rebind to frame 1, activate
successfully, forget, destroy]. -/
theorem slot_lifetime_lock_balance_witness :
    countSuccessfulLocks (lifetimeEvents (FrameDataPair.withFrame (some 0))
        [SlotOp.activateView ⟨true, false, 0, 1⟩,
         SlotOp.setFrameOp (some 1),
         SlotOp.activateView ⟨true, true, 9, 0⟩,
         SlotOp.forgetOp]) =
      countUnlocks (lifetimeEvents (FrameDataPair.withFrame (some 0))
        [SlotOp.activateView ⟨true, false, 0, 1⟩,
         SlotOp.setFrameOp (some 1),
         SlotOp.activateView ⟨true, true, 9, 0⟩,
         SlotOp.forgetOp]) :=
  slot_lifetime_lock_balance (some 0)
    [SlotOp.activateView ⟨true, false, 0, 1⟩,
     SlotOp.setFrameOp (some 1),
     SlotOp.activateView ⟨true, true, 9, 0⟩,
     SlotOp.forgetOp] (by decide)

/-- C3 (counterexample): the claim says a failed lock call leaves
`has_view()` false for every slot; on a slot whose view is already active,
a second `LockAndGetData` whose lock fails leaves `has_view()` true. -/
theorem activateView_fail_on_active_cex :
    ¬ ((((FrameDataPair.withFrame (some 0)).lockAndGetData
          ⟨true, false, 0, 5⟩).1.lockAndGetData
          ⟨false, false, 0, 0⟩).1.hasFrameData = false) := by
  decide

/-- C3 (amended): on a slot whose view is inactive, `LockAndGetData` with
an empty handle, or with a frame whose lock call fails, leaves
`has_view()` false, issues no unlock during the attempt, and leaves the
destructor issuing no unlock either (the operation returns no error: its
result is a plain state, there is no error channel to propagate). -/
theorem activateView_failure_inactive (s : FrameDataPair) (obs : FrameObs)
    (hd : s.mFrameData = 0)
    (hfail : s.mFrame = none ∨ obs.lockSucceeds = false) :
    (s.lockAndGetData obs).1.hasFrameData = false ∧
    countUnlocks (s.lockAndGetData obs).2 = 0 ∧
    (s.lockAndGetData obs).1.destruct = [] := by
  rcases hfail with hf | hl
  · simp [FrameDataPair.lockAndGetData, FrameDataPair.hasFrameData,
      FrameDataPair.destruct, hf, hd, countUnlocks]
  · cases hf : s.mFrame with
    | none =>
      simp [FrameDataPair.lockAndGetData, FrameDataPair.hasFrameData,
        FrameDataPair.destruct, hf, hd, countUnlocks]
    | some f =>
      simp [FrameDataPair.lockAndGetData, FrameDataPair.hasFrameData,
        FrameDataPair.destruct, hf, hl, hd, countUnlocks]

/-- C3 (witness): the amended statement at the concrete inactive slot
holding frame 2, with a lock call that fails. -/
theorem activateView_failure_inactive_witness :
    ((FrameDataPair.mk (some 2) 0).lockAndGetData
        ⟨false, false, 3, 4⟩).1.hasFrameData = false ∧
    countUnlocks ((FrameDataPair.mk (some 2) 0).lockAndGetData
        ⟨false, false, 3, 4⟩).2 = 0 ∧
    ((FrameDataPair.mk (some 2) 0).lockAndGetData
        ⟨false, false, 3, 4⟩).1.destruct = [] :=
  activateView_failure_inactive ⟨some 2, 0⟩ ⟨false, false, 3, 4⟩ rfl
    (Or.inr rfl)

/-- C4: on a slot with a non-empty handle whose lock call succeeds, the
stored view pointer is the frame's palette pointer when the frame reports
paletted at that call, else its raw image pointer; the choice comes from
the observation supplied at this activation (the slot state caches no
paletted flag), and the handle is unchanged. -/
theorem activateView_pointer_selection (s : FrameDataPair) (f : Nat)
    (obs : FrameObs) (hf : s.mFrame = some f) (hl : obs.lockSucceeds = true) :
    (s.lockAndGetData obs).1.mFrameData =
      (if obs.isPaletted then obs.paletteData else obs.imageData) ∧
    (s.lockAndGetData obs).1.mFrame = some f ∧
    (s.lockAndGetData obs).2 = [Event.lockCall f true] := by
  simp [FrameDataPair.lockAndGetData, hf, hl]

/-- C4 (witness): pointer selection at a concrete paletted observation —
the stored pointer is the palette pointer 9, not the image pointer 4. -/
theorem activateView_pointer_selection_witness :
    ((FrameDataPair.mk (some 2) 0).lockAndGetData
        ⟨true, true, 9, 4⟩).1.mFrameData = (if true then 9 else 4) ∧
    ((FrameDataPair.mk (some 2) 0).lockAndGetData
        ⟨true, true, 9, 4⟩).1.mFrame = some 2 ∧
    ((FrameDataPair.mk (some 2) 0).lockAndGetData
        ⟨true, true, 9, 4⟩).2 = [Event.lockCall 2 true] :=
  activateView_pointer_selection ⟨some 2, 0⟩ 2 ⟨true, true, 9, 4⟩ rfl rfl

/-- C5: copy-construction and copy-assignment (from a distinct slot) yield
a slot holding the same frame handle with an inactive view, and issue no
lock-protocol calls at all — in particular they never increase the number
of outstanding locks on the frame. Holds also when the source's view is
active. -/
theorem copy_shares_handle_no_lock (s aOther : FrameDataPair) :
    (FrameDataPair.copyCtor s).1.mFrame = s.mFrame ∧
    (FrameDataPair.copyCtor s).1.hasFrameData = false ∧
    (FrameDataPair.copyCtor s).2 = [] ∧
    (aOther.copyAssign s false).1.mFrame = s.mFrame ∧
    (aOther.copyAssign s false).1.hasFrameData = false ∧
    (aOther.copyAssign s false).2 = [] := by
  simp [FrameDataPair.copyCtor, FrameDataPair.copyAssign,
    FrameDataPair.hasFrameData]

/-- C6: move-construction and move-assignment (from a distinct slot)
transfer both the frame handle and the view pointer to the destination,
leave the source with an empty handle and inactive view, and issue no
lock-protocol calls (every frame's outstanding-lock count changes by
zero). -/
theorem move_transfers_handle_and_view (s aOther : FrameDataPair) :
    (FrameDataPair.moveCtor s).1.1.mFrame = s.mFrame ∧
    (FrameDataPair.moveCtor s).1.1.mFrameData = s.mFrameData ∧
    (FrameDataPair.moveCtor s).1.2 = ⟨none, 0⟩ ∧
    (FrameDataPair.moveCtor s).2 = [] ∧
    (aOther.moveAssign s).1.1.mFrame = s.mFrame ∧
    (aOther.moveAssign s).1.1.mFrameData = s.mFrameData ∧
    (aOther.moveAssign s).1.2 = ⟨none, 0⟩ ∧
    (aOther.moveAssign s).2 = [] := by
  simp [FrameDataPair.moveCtor, FrameDataPair.moveAssign]

/-- C7: `Forget()` issues exactly one unlock iff the view was active (and
never a lock), returns the previously held handle to the caller, and
leaves the slot with an empty handle and inactive view. The hypothesis is
the data-implies-frame invariant, which holds of every state the class
produces. -/
theorem forget_returns_handle_unlocks (s : FrameDataPair)
    (hinv : s.mFrameData ≠ 0 → s.mFrame ≠ none) :
    (s.forget).1 = ⟨none, 0⟩ ∧
    (s.forget).2.1 = s.mFrame ∧
    countUnlocks (s.forget).2.2 = (if s.hasFrameData then 1 else 0) ∧
    countSuccessfulLocks (s.forget).2.2 = 0 := by
  by_cases hd : s.mFrameData = 0
  · simp [FrameDataPair.forget, FrameDataPair.hasFrameData, hd,
      countUnlocks, countSuccessfulLocks]
  · cases hf : s.mFrame with
    | none => exact absurd hf (hinv hd)
    | some f =>
      simp [FrameDataPair.forget, FrameDataPair.hasFrameData, hd, hf,
        countUnlocks, countSuccessfulLocks]

/-- C7 (witness): `Forget()` on the concrete active slot `(frame 4, data 2)`
unlocks once and hands frame 4 back. -/
theorem forget_returns_handle_unlocks_witness :
    ((FrameDataPair.mk (some 4) 2).forget).1 = ⟨none, 0⟩ ∧
    ((FrameDataPair.mk (some 4) 2).forget).2.1 = (FrameDataPair.mk (some 4) 2).mFrame ∧
    countUnlocks ((FrameDataPair.mk (some 4) 2).forget).2.2 =
      (if (FrameDataPair.mk (some 4) 2).hasFrameData then 1 else 0) ∧
    countSuccessfulLocks ((FrameDataPair.mk (some 4) 2).forget).2.2 = 0 :=
  forget_returns_handle_unlocks ⟨some 4, 2⟩ (by decide)

/-- C8: `SetFrame(f)` with `f` the currently held frame, on a slot whose
view is active, issues exactly one unlock of that frame and leaves the slot
bound to the same frame with the view inactive. -/
theorem setFrame_same_frame_cycles_lock (s : FrameDataPair) (f : Nat)
    (hf : s.mFrame = some f) (hd : s.mFrameData ≠ 0) :
    s.setFrame (some f) = (⟨some f, 0⟩, [Event.unlockCall f]) := by
  simp [FrameDataPair.setFrame, hf, hd]

/-- C8 (witness): rebinding the concrete active slot `(frame 5, data 3)` to
frame 5 itself. -/
theorem setFrame_same_frame_cycles_lock_witness :
    (FrameDataPair.mk (some 5) 3).setFrame (some 5) =
      (⟨some 5, 0⟩, [Event.unlockCall 5]) :=
  setFrame_same_frame_cycles_lock ⟨some 5, 3⟩ 5 rfl (by decide)

/-- C9: for every sequence and every position `i ≤ size`, inserting a frame
at `i` and then removing at `i` restores the sequence, position by position
(list equality of the per-position frame handles). -/
theorem insertFrame_removeFrame_roundtrip (seq : FrameSequence) (i : Nat)
    (aFrame : Option Nat) (h : i ≤ seq.getNumFrames) :
    (seq.insertFrame i aFrame).removeFrame i = seq := by
  cases seq with
  | mk xs =>
    simp only [FrameSequence.insertFrame, FrameSequence.removeFrame,
      FrameSequence.mk.injEq]
    exact removeAt_insertAt aFrame xs i h

/-- C9 (witness): inserting frame 9 at position 1 of `[1, 2]` and removing
at 1 restores `[1, 2]`. -/
theorem insertFrame_removeFrame_roundtrip_witness :
    ((FrameSequence.mk [some 1, some 2]).insertFrame 1 (some 9)).removeFrame 1 =
      FrameSequence.mk [some 1, some 2] :=
  insertFrame_removeFrame_roundtrip ⟨[some 1, some 2]⟩ 1 (some 9) (by decide)

/-- C10: `HasFrameData()` is true exactly when the stored data pointer is
non-null; and after a `LockAndGetData` whose lock succeeds but whose
selected accessor (palette or image, per the paletted flag) returns null,
the slot reports no view and its destructor issues no unlock. -/
theorem hasFrameData_iff_nonnull_pointer (s : FrameDataPair) (f : Nat)
    (obs : FrameObs) (hf : s.mFrame = some f) (hl : obs.lockSucceeds = true)
    (hnull : (if obs.isPaletted then obs.paletteData else obs.imageData) = 0) :
    (∀ t : FrameDataPair, t.hasFrameData = true ↔ t.mFrameData ≠ 0) ∧
    (s.lockAndGetData obs).1.hasFrameData = false ∧
    (s.lockAndGetData obs).1.destruct = [] := by
  refine ⟨fun t => by simp [FrameDataPair.hasFrameData], ?_, ?_⟩
  · simp [FrameDataPair.lockAndGetData, FrameDataPair.hasFrameData, hf, hl, hnull]
  · simp [FrameDataPair.lockAndGetData, FrameDataPair.destruct, hf, hl, hnull]

/-- C10 (witness): a successful lock on frame 2 whose frame reports
paletted with a null palette pointer leaves no view and a silent
destructor. -/
theorem hasFrameData_iff_nonnull_pointer_witness :
    (∀ t : FrameDataPair, t.hasFrameData = true ↔ t.mFrameData ≠ 0) ∧
    ((FrameDataPair.mk (some 2) 0).lockAndGetData
        ⟨true, true, 0, 4⟩).1.hasFrameData = false ∧
    ((FrameDataPair.mk (some 2) 0).lockAndGetData
        ⟨true, true, 0, 4⟩).1.destruct = [] :=
  hasFrameData_iff_nonnull_pointer ⟨some 2, 0⟩ 2 ⟨true, true, 0, 4⟩ rfl rfl
    (by decide)

end FrameSequenceModel
